import Mathlib

/-
Verification of the taskvine task module (src/taskvine/src/manager/vine_task.h).

The repository provides only the header vine_task.h: the enumerations and the
struct vine_task data model below are embedded directly from that header.
The function bodies (vine_task.c and the manager dispatch loop) are not part
of the repository snapshot, so every operation is modelled from the
specification (spec.md), as indicated by its doc comment.
-/

set_option linter.unusedVariables false

/-- From vine_task.h lines 25-30: the type of a task. -/
inductive vine_task_type_t
  | VINE_TASK_TYPE_STANDARD
  | VINE_TASK_TYPE_RECOVERY
  | VINE_TASK_TYPE_LIBRARY_TEMPLATE
  | VINE_TASK_TYPE_LIBRARY_INSTANCE
  deriving DecidableEq

export vine_task_type_t (VINE_TASK_TYPE_STANDARD VINE_TASK_TYPE_RECOVERY
  VINE_TASK_TYPE_LIBRARY_TEMPLATE VINE_TASK_TYPE_LIBRARY_INSTANCE)

/-- From vine_task.h lines 32-39: the lifecycle state of a task. -/
inductive vine_task_state_t
  | VINE_TASK_INITIAL
  | VINE_TASK_READY
  | VINE_TASK_RUNNING
  | VINE_TASK_WAITING_RETRIEVAL
  | VINE_TASK_RETRIEVED
  | VINE_TASK_DONE
  deriving DecidableEq

export vine_task_state_t (VINE_TASK_INITIAL VINE_TASK_READY VINE_TASK_RUNNING
  VINE_TASK_WAITING_RETRIEVAL VINE_TASK_RETRIEVED VINE_TASK_DONE)

/-- From vine_task.h lines 41-45: the execution mode of a library task's functions. -/
inductive vine_task_func_exec_mode_t
  | VINE_TASK_FUNC_EXEC_MODE_INVALID
  | VINE_TASK_FUNC_EXEC_MODE_DIRECT
  | VINE_TASK_FUNC_EXEC_MODE_FORK
  deriving DecidableEq

export vine_task_func_exec_mode_t (VINE_TASK_FUNC_EXEC_MODE_INVALID
  VINE_TASK_FUNC_EXEC_MODE_DIRECT VINE_TASK_FUNC_EXEC_MODE_FORK)

/-- Modelled from the spec: vine_result_t is declared in taskvine.h, which is not
under src/.  The spec names a success result, attempt-failure results
(non-zero exit / resource exhaustion / slow-task termination) and the FORSAKEN
result for attempts that were dispatched but never began execution. -/
inductive vine_result_t
  | VINE_RESULT_SUCCESS
  | VINE_RESULT_UNKNOWN
  | VINE_RESULT_SIGNAL
  | VINE_RESULT_RESOURCE_EXHAUSTION
  | VINE_RESULT_MAX_END_TIME
  | VINE_RESULT_FORSAKEN
  deriving DecidableEq

export vine_result_t (VINE_RESULT_SUCCESS VINE_RESULT_UNKNOWN VINE_RESULT_SIGNAL
  VINE_RESULT_RESOURCE_EXHAUSTION VINE_RESULT_MAX_END_TIME VINE_RESULT_FORSAKEN)

/-- Modelled from the spec: category_allocation_t is declared in category.h, which is
not under src/.  Only the default value matters to the claims. -/
inductive category_allocation_t
  | CATEGORY_ALLOCATION_FIRST
  | CATEGORY_ALLOCATION_AUTO
  | CATEGORY_ALLOCATION_MAX
  deriving DecidableEq

/-- Modelled from the spec: vine_schedule_t (worker-selection policy) is declared in
taskvine.h, which is not under src/.  The policy itself is an external collaborator;
only the stored label matters to the claims. -/
inductive vine_schedule_t
  | VINE_SCHEDULE_UNSET
  | VINE_SCHEDULE_FCFS
  | VINE_SCHEDULE_FILES
  | VINE_SCHEDULE_TIME
  | VINE_SCHEDULE_RAND
  | VINE_SCHEDULE_WORST
  deriving DecidableEq

/-- Modelled from the spec: a mount binds one artifact to a remote name inside the
task's sandbox, tagged with flags controlling caching, fixed-location placement and
watch behaviour (struct vine_mount is declared outside src/). -/
structure vine_mount where
  local_name : String
  remote_name : String
  is_cache : Bool
  is_watch : Bool
  is_fixed_location : Bool
  deriving DecidableEq

/-- Modelled from the spec: a resource summary is a named set of numeric quantities
(struct rmsummary is declared outside src/).  Quantities are integral here; the
claims only move summaries around whole. -/
structure rmsummary where
  cores : Int
  memory : Int
  disk : Int
  gpus : Int
  wall_time : Int
  deriving DecidableEq

/-- A heap of mount lists.  The C task holds `struct list *` pointers to its input
and output mount lists; aliasing between tasks is observable (deep copy must
duplicate the lists).  The store models that pointer indirection: a task stores an
index into the store, and mutation happens through the store. -/
structure MountStore where
  lists : List (List vine_mount)
  deriving DecidableEq

/-- Dereference a mount-list pointer. -/
def store_get (s : MountStore) (r : Nat) : List vine_mount :=
  s.lists.getD r []

/-- Allocate a fresh mount list in the store, returning the new store and the
fresh pointer. -/
def store_alloc (s : MountStore) (l : List vine_mount) : MountStore × Nat :=
  (⟨s.lists ++ [l]⟩, s.lists.length)

/-- Overwrite the mount list a pointer refers to. -/
def store_set (s : MountStore) (r : Nat) (l : List vine_mount) : MountStore :=
  ⟨s.lists.set r l⟩

/-- Embedded from struct vine_task, vine_task.h lines 47-142, field for field and in
the header's order.  Nullable C pointers become Option; weak references (worker,
paired library task) are registry keys as the spec's design notes direct; the two
mount lists are MountStore pointers; timestamps (microseconds) are Nat; C int and
int64_t counters are Int; the C doubles priority and sandbox_measured are modelled
as Int, no claim depending on their fractional part. -/
structure vine_task where
  task_id : Int
  type : vine_task_type_t
  command_line : String
  tag : Option String
  category : String
  monitor_output_directory : Option String
  monitor_snapshot_file : Option String
  needs_library : Option String
  provides_library : Option String
  function_slots_requested : Int
  func_exec_mode : vine_task_func_exec_mode_t
  input_mounts : Nat
  output_mounts : Nat
  env_list : List (String × String)
  feature_list : List String
  resource_request : category_allocation_t
  worker_selection_algorithm : vine_schedule_t
  priority : Int
  max_retries : Int
  max_forsaken : Int
  min_running_time : Int
  input_files_size : Int
  state : vine_task_state_t
  worker : Option Nat
  library_task : Option Nat
  library_log_path : Option String
  try_count : Int
  forsaken_count : Int
  library_failed_count : Int
  exhausted_attempts : Int
  forsaken_attempts : Int
  workers_slow : Int
  function_slots_total : Int
  function_slots_inuse : Int
  result : vine_result_t
  exit_code : Int
  output_received : Bool
  output_length : Int
  output : Option String
  addrport : Option String
  hostname : Option String
  time_when_submitted : Nat
  time_when_done : Nat
  time_when_commit_start : Nat
  time_when_commit_end : Nat
  time_when_retrieval : Nat
  time_when_last_failure : Nat
  time_workers_execute_last_start : Nat
  time_workers_execute_last_end : Nat
  time_workers_execute_last : Nat
  time_workers_execute_all : Nat
  time_workers_execute_exhaustion : Nat
  time_workers_execute_failure : Nat
  bytes_received : Int
  bytes_sent : Int
  bytes_transferred : Int
  resources_allocated : Option rmsummary
  resources_measured : Option rmsummary
  resources_requested : Option rmsummary
  current_resource_box : Option rmsummary
  sandbox_measured : Int
  has_fixed_locations : Bool
  group_id : Int
  refcount : Int
  deriving DecidableEq

/-- The numeric code of a lifecycle state, as assigned by the C enum
(vine_task.h lines 32-39: INITIAL = 0 and the rest consecutive). -/
def stateCode : vine_task_state_t → Nat
  | VINE_TASK_INITIAL => 0
  | VINE_TASK_READY => 1
  | VINE_TASK_RUNNING => 2
  | VINE_TASK_WAITING_RETRIEVAL => 3
  | VINE_TASK_RETRIEVED => 4
  | VINE_TASK_DONE => 5

/-- The immediate successor of a lifecycle state in the strict forward order of
the spec (INITIAL, READY, RUNNING, WAITING_RETRIEVAL, RETRIEVED, DONE). -/
def stateNext : vine_task_state_t → vine_task_state_t
  | VINE_TASK_INITIAL => VINE_TASK_READY
  | VINE_TASK_READY => VINE_TASK_RUNNING
  | VINE_TASK_RUNNING => VINE_TASK_WAITING_RETRIEVAL
  | VINE_TASK_WAITING_RETRIEVAL => VINE_TASK_RETRIEVED
  | VINE_TASK_RETRIEVED => VINE_TASK_DONE
  | VINE_TASK_DONE => VINE_TASK_DONE

/-- Modelled from the spec: the lifecycle controller's transition relation
(implemented by the change-of-state logic in the manager sources, not under src/).
A transition either advances one step in the strict forward order, or is a
terminal abort (cancellation, fatal placement error) that jumps straight to DONE.
DONE is terminal: no transition leaves it. -/
inductive vine_state_step : vine_task_state_t → vine_task_state_t → Prop
  | forward (s : vine_task_state_t) (h : s ≠ VINE_TASK_DONE) :
      vine_state_step s (stateNext s)
  | abort (s : vine_task_state_t) (h : s ≠ VINE_TASK_DONE) :
      vine_state_step s VINE_TASK_DONE

/-- Modelled from the spec: vine_task_create (vine_task.c, not under src/)
constructs a task in the INITIAL state with submission defaults: category
"default", no mounts attached yet (the given store pointers), -1 requested
function slots, all counters and metrics zero, result unknown, one reference. -/
def vine_task_create (id : Int) (cmd : String) (inref outref : Nat) : vine_task :=
  { task_id := id
    type := VINE_TASK_TYPE_STANDARD
    command_line := cmd
    tag := none
    category := "default"
    monitor_output_directory := none
    monitor_snapshot_file := none
    needs_library := none
    provides_library := none
    function_slots_requested := -1
    func_exec_mode := VINE_TASK_FUNC_EXEC_MODE_INVALID
    input_mounts := inref
    output_mounts := outref
    env_list := []
    feature_list := []
    resource_request := category_allocation_t.CATEGORY_ALLOCATION_FIRST
    worker_selection_algorithm := vine_schedule_t.VINE_SCHEDULE_UNSET
    priority := 0
    max_retries := 0
    max_forsaken := 0
    min_running_time := 0
    input_files_size := -1
    state := VINE_TASK_INITIAL
    worker := none
    library_task := none
    library_log_path := none
    try_count := 0
    forsaken_count := 0
    library_failed_count := 0
    exhausted_attempts := 0
    forsaken_attempts := 0
    workers_slow := 0
    function_slots_total := 0
    function_slots_inuse := 0
    result := VINE_RESULT_UNKNOWN
    exit_code := 0
    output_received := false
    output_length := 0
    output := none
    addrport := none
    hostname := none
    time_when_submitted := 0
    time_when_done := 0
    time_when_commit_start := 0
    time_when_commit_end := 0
    time_when_retrieval := 0
    time_when_last_failure := 0
    time_workers_execute_last_start := 0
    time_workers_execute_last_end := 0
    time_workers_execute_last := 0
    time_workers_execute_all := 0
    time_workers_execute_exhaustion := 0
    time_workers_execute_failure := 0
    bytes_received := 0
    bytes_sent := 0
    bytes_transferred := 0
    resources_allocated := none
    resources_measured := none
    resources_requested := none
    current_resource_box := none
    sandbox_measured := 0
    has_fixed_locations := false
    group_id := 0
    refcount := 1 }

/-- An attempt outcome is a forsaking when the task was dispatched to a worker but
never began execution there (spec glossary). -/
def result_is_forsaken (r : vine_result_t) : Bool :=
  r = VINE_RESULT_FORSAKEN

/-- Modelled from the spec: vine_task_set_result (vine_task.c, not under src/) is
the single entry point recording a terminal or attempt-level result.  Per
vine_task.h line 83, try_count counts the dispatches that were not forsaken, so it
increments on every non-forsaken outcome (including success); forsaken_count and
the diagnostic accumulators increment per their failure mode.  The returned flag
says whether the task is now terminal (DONE-eligible) or should be re-queued to
READY: success is terminal; a failed attempt is terminal once try_count exceeds a
positive max_retries, keeping the result of the last attempt; a forsaken attempt
is terminal once forsaken_count exceeds a positive max_forsaken, with result
FORSAKEN regardless of try_count.  Timestamp bookkeeping is driven by the
manager's clock, which no claim concerns, and is not modelled. -/
def vine_task_set_result (t : vine_task) (new_result : vine_result_t) :
    vine_task × Bool :=
  if result_is_forsaken new_result then
    let fc := t.forsaken_count + 1
    let terminal := 0 < t.max_forsaken ∧ t.max_forsaken < fc
    ({ t with forsaken_count := fc
              forsaken_attempts := t.forsaken_attempts + 1
              result := VINE_RESULT_FORSAKEN },
     decide terminal)
  else
    let tc := t.try_count + 1
    let terminal := new_result = VINE_RESULT_SUCCESS ∨
      (0 < t.max_retries ∧ t.max_retries < tc)
    ({ t with try_count := tc
              exhausted_attempts := t.exhausted_attempts +
                (if new_result = VINE_RESULT_RESOURCE_EXHAUSTION then 1 else 0)
              workers_slow := t.workers_slow +
                (if new_result = VINE_RESULT_MAX_END_TIME then 1 else 0)
              result := new_result },
     decide terminal)

/-- The retry loop, modelled from the spec: the manager feeds attempt outcomes to
vine_task_set_result and re-queues the task until an outcome is terminal.  Returns
the final task together with whether a terminal outcome was reached. -/
def vine_task_run_attempts (t : vine_task) : List vine_result_t → vine_task × Bool
  | [] => (t, false)
  | r :: rs =>
    if (vine_task_set_result t r).2 then ((vine_task_set_result t r).1, true)
    else vine_task_run_attempts (vine_task_set_result t r).1 rs

/-- Modelled from the spec: vine_task_set_resources (declared at vine_task.h line
158, body not under src/) installs the allocated summary for the attempt currently
beginning; it does not mutate the requested summary. -/
def vine_task_set_resources (t : vine_task) (rm : rmsummary) : vine_task :=
  { t with resources_allocated := some rm }

/-- Modelled from the spec: vine_task_clean (declared at vine_task.h lines 154-155,
body not under src/) soft-resets a not-yet-completed task so it can be attempted
on a different worker: it clears only the transient per-attempt state (the worker
reference, the current resource box, and partial output), preserving the
try_count / forsaken_count history. -/
def vine_task_clean (t : vine_task) : vine_task :=
  { t with worker := none
           current_resource_box := none
           output := none
           output_received := false
           output_length := 0 }

/-- Modelled from the spec: vine_task_reset (declared at vine_task.h lines 151-152,
body not under src/) hard-resets a completed task back to an initial state so it
can be submitted again: all results, metrics and attempt counters return to
submission defaults, while submission-time fields (command line, tag, category,
mounts, environment, features, resource request, policy, priority, retry budgets)
are untouched. -/
def vine_task_reset (t : vine_task) : vine_task :=
  { t with state := VINE_TASK_INITIAL
           worker := none
           library_task := none
           library_log_path := none
           try_count := 0
           forsaken_count := 0
           library_failed_count := 0
           exhausted_attempts := 0
           forsaken_attempts := 0
           workers_slow := 0
           function_slots_total := 0
           function_slots_inuse := 0
           result := VINE_RESULT_UNKNOWN
           exit_code := 0
           output_received := false
           output_length := 0
           output := none
           addrport := none
           hostname := none
           time_when_submitted := 0
           time_when_done := 0
           time_when_commit_start := 0
           time_when_commit_end := 0
           time_when_retrieval := 0
           time_when_last_failure := 0
           time_workers_execute_last_start := 0
           time_workers_execute_last_end := 0
           time_workers_execute_last := 0
           time_workers_execute_all := 0
           time_workers_execute_exhaustion := 0
           time_workers_execute_failure := 0
           bytes_received := 0
           bytes_sent := 0
           bytes_transferred := 0
           resources_allocated := none
           resources_measured := none
           current_resource_box := none
           sandbox_measured := 0 }

/-- Modelled from the spec: vine_task_copy (declared at vine_task.h lines 148-149,
body not under src/) deep-copies a task: submission-time fields are carried over,
the mount lists are duplicated into freshly allocated store slots so the copy's
storage is independent of the original's, and counters and results are reset to
their initial values (a fresh object with one reference). -/
def vine_task_copy (s : MountStore) (t : vine_task) : MountStore × vine_task :=
  let a1 := store_alloc s (store_get s t.input_mounts)
  let a2 := store_alloc a1.1 (store_get s t.output_mounts)
  (a2.1,
   { t with input_mounts := a1.2
            output_mounts := a2.2
            state := VINE_TASK_INITIAL
            worker := none
            library_task := none
            library_log_path := none
            try_count := 0
            forsaken_count := 0
            library_failed_count := 0
            exhausted_attempts := 0
            forsaken_attempts := 0
            workers_slow := 0
            function_slots_total := 0
            function_slots_inuse := 0
            result := VINE_RESULT_UNKNOWN
            exit_code := 0
            output_received := false
            output_length := 0
            output := none
            addrport := none
            hostname := none
            time_when_submitted := 0
            time_when_done := 0
            time_when_commit_start := 0
            time_when_commit_end := 0
            time_when_retrieval := 0
            time_when_last_failure := 0
            time_workers_execute_last_start := 0
            time_workers_execute_last_end := 0
            time_workers_execute_last := 0
            time_workers_execute_all := 0
            time_workers_execute_exhaustion := 0
            time_workers_execute_failure := 0
            bytes_received := 0
            bytes_sent := 0
            bytes_transferred := 0
            resources_allocated := none
            resources_measured := none
            current_resource_box := none
            sandbox_measured := 0
            refcount := 1 })

/-- An event of the library/function subsystem, modelled from the spec: a pending
function task (identified by its task id) is matched to the library instance, or
an admitted function task completes with some outcome. -/
inductive lib_event
  | matched (fid : Nat)
  | complete (fid : Nat) (outcome : vine_result_t)

/-- Modelled from the spec: slot admission and release on a library instance
(implemented by the manager's library scheduling, not under src/).  The state
pairs the library-instance task with the ids of the function tasks currently
admitted.  Admission requires a free slot (function_slots_inuse less than
function_slots_total) and increments function_slots_inuse; completion of an
admitted function task decrements it unconditionally, whatever the outcome,
and removes the id so the decrement happens exactly once per admission.  An
event whose guard fails leaves the state unchanged (the match simply does not
occur). -/
def lib_step (s : vine_task × List Nat) (e : lib_event) : vine_task × List Nat :=
  match e with
  | lib_event.matched fid =>
    if s.1.function_slots_inuse < s.1.function_slots_total ∧ fid ∉ s.2 then
      ({ s.1 with function_slots_inuse := s.1.function_slots_inuse + 1 }, fid :: s.2)
    else s
  | lib_event.complete fid outcome =>
    if fid ∈ s.2 then
      ({ s.1 with function_slots_inuse := s.1.function_slots_inuse - 1 }, s.2.erase fid)
    else s

/-- A whole trace of library/function events. -/
def lib_run (s : vine_task × List Nat) (es : List lib_event) : vine_task × List Nat :=
  es.foldl lib_step s

/-- The slot-accounting invariant of a library instance: the in-use count equals
the number of currently admitted function tasks (each admitted at most once) and
never exceeds the slot total. -/
def lib_inv (s : vine_task × List Nat) : Prop :=
  s.1.type = VINE_TASK_TYPE_LIBRARY_INSTANCE ∧
  s.1.function_slots_inuse = (s.2.length : Int) ∧
  s.2.Nodup ∧
  s.1.function_slots_inuse ≤ s.1.function_slots_total

/-- True when the remote names in the list are pairwise distinct, by the pairwise
scan the consistency check performs. -/
def names_distinct : List String → Bool
  | [] => true
  | n :: rest => !(rest.contains n) && names_distinct rest

/-- True when no name of the first list occurs in the second. -/
def names_disjoint (a b : List String) : Bool :=
  a.all (fun n => !(b.contains n))

/-- The remote names claimed by a mount list. -/
def remote_names (l : List vine_mount) : List String :=
  l.map (fun m => m.remote_name)

/-- Modelled from the spec: vine_task_check_consistency (declared at vine_task.h
lines 160-161, body not under src/) validates the mount sets before the task may
leave INITIAL: no two mounts of the same direction list may claim the same remote
name, no input and output mount may collide on a remote name, and a
fixed-location input requires the has_fixed_locations flag. -/
def vine_task_check_consistency (s : MountStore) (t : vine_task) : Bool :=
  let ins := store_get s t.input_mounts
  let outs := store_get s t.output_mounts
  names_distinct (remote_names ins) &&
  names_distinct (remote_names outs) &&
  names_disjoint (remote_names ins) (remote_names outs) &&
  (ins.all (fun m => !m.is_fixed_location) || t.has_fixed_locations)

/-- Modelled from the spec: vine_task_func_exec_mode_from_string (declared at
vine_task.h line 171, body not under src/) parses the name of an execution mode;
every string naming neither the DIRECT nor the FORK mode yields the
distinguished INVALID value. -/
def vine_task_func_exec_mode_from_string (exec_mode : String) :
    vine_task_func_exec_mode_t :=
  if exec_mode = "direct" then VINE_TASK_FUNC_EXEC_MODE_DIRECT
  else if exec_mode = "fork" then VINE_TASK_FUNC_EXEC_MODE_FORK
  else VINE_TASK_FUNC_EXEC_MODE_INVALID

/-- Modelled from the spec: the public API stores a library task's execution mode
by parsing the user's string (wrapper over the data model, outside src/). -/
def vine_task_set_function_exec_mode (t : vine_task) (exec_mode : String) : vine_task :=
  { t with func_exec_mode := vine_task_func_exec_mode_from_string exec_mode }

/-- The structural submission errors of the spec's error taxonomy. -/
inductive vine_submit_error
  | inconsistent_mounts
  | invalid_exec_mode
  deriving DecidableEq

/-- Modelled from the spec: the INITIAL to READY transition of the manager's
submission path (not under src/).  Structural submission errors - an inconsistent
mount set, or a library task whose execution mode string did not parse - are
rejected synchronously, before the task leaves INITIAL and without touching any
attempt counter, and are never retried; otherwise the task becomes READY. -/
def vine_task_submit (s : MountStore) (t : vine_task) :
    Except vine_submit_error vine_task :=
  if vine_task_check_consistency s t = false then
    Except.error vine_submit_error.inconsistent_mounts
  else if (t.type = VINE_TASK_TYPE_LIBRARY_TEMPLATE ∨
           t.type = VINE_TASK_TYPE_LIBRARY_INSTANCE) ∧
          t.func_exec_mode = VINE_TASK_FUNC_EXEC_MODE_INVALID then
    Except.error vine_submit_error.invalid_exec_mode
  else
    Except.ok { t with state := VINE_TASK_READY }

/-- Whether a submission outcome is a success (the task was accepted and queued). -/
def submit_isok : Except vine_submit_error vine_task → Bool
  | Except.ok _ => true
  | Except.error _ => false

/-- A store with two empty mount lists, list 0 for inputs and list 1 for outputs. -/
def emptyStore : MountStore := ⟨[[], []]⟩

/-- A freshly created standard task pointing at the empty mount lists. -/
def exTask : vine_task := vine_task_create 1 "hostname" 0 1

/-- The fresh task with a retry budget of two attempts. -/
def exRetry : vine_task := { exTask with max_retries := 2 }

/-- A task whose forsaken budget is already spent and whose try_count is unrelated. -/
def exForsaken : vine_task :=
  { exTask with max_forsaken := 1, forsaken_count := 1, try_count := 5 }

/-- A completed task carrying results, metrics and attempt history. -/
def exDone : vine_task :=
  { exTask with state := VINE_TASK_DONE, try_count := 2, forsaken_count := 1,
                exhausted_attempts := 1, result := VINE_RESULT_SUCCESS,
                exit_code := 0, output := some "hi", output_received := true,
                output_length := 2, time_when_done := 99, time_when_submitted := 5,
                bytes_sent := 10, worker := some 4,
                resources_allocated := some ⟨1, 2, 3, 0, 10⟩,
                resources_measured := some ⟨1, 1, 1, 0, 7⟩,
                current_resource_box := some ⟨1, 2, 3, 0, 10⟩,
                sandbox_measured := 42 }

/-- A library-instance task exposing two function slots, one in use. -/
def exLib : vine_task :=
  { vine_task_create 2 "library" 0 1 with
    type := VINE_TASK_TYPE_LIBRARY_INSTANCE,
    provides_library := some "libA",
    function_slots_total := 2, function_slots_inuse := 1 }

/-- The library instance paired with the id of its one admitted function task. -/
def exLibState : vine_task × List Nat := (exLib, [7])

/-- An input mount. -/
def mountA : vine_mount := ⟨"local_a", "in.txt", false, false, false⟩

/-- An output mount with remote name out.txt. -/
def mountB : vine_mount := ⟨"local_b", "out.txt", false, false, false⟩

/-- A second output mount also claiming remote name out.txt. -/
def mountC : vine_mount := ⟨"local_c", "out.txt", true, false, false⟩

/-- A replacement mount list used to mutate a copy's mounts. -/
def mountsNew : List vine_mount := [⟨"local_d", "extra.txt", false, false, false⟩]

/-- A consistent store: one input mount, one output mount. -/
def exStore : MountStore := ⟨[[mountA], [mountB]]⟩

/-- An inconsistent store: the output list claims out.txt twice. -/
def exBadStore : MountStore := ⟨[[], [mountB, mountC]]⟩

/-- A library-template task (whose execution mode is about to be set from a string). -/
def exLibTemplate : vine_task := { exTask with type := VINE_TASK_TYPE_LIBRARY_TEMPLATE }

/-- C1: for every task, the lifecycle state advances only in the strict forward
order INITIAL, READY, RUNNING, WAITING_RETRIEVAL, RETRIEVED, DONE, with no
transition skipping a state except on terminal abort, and DONE is reached at
most once per submission: every transition either moves to the immediate
successor state or is a terminal abort to DONE, it strictly increases the state
code, and no transition ever leaves DONE. -/
theorem vine_state_step_strict_forward (s s' u : vine_task_state_t)
    (h : vine_state_step s s') :
    (s' = stateNext s ∨ s' = VINE_TASK_DONE) ∧
    stateCode s < stateCode s' ∧
    ¬ vine_state_step VINE_TASK_DONE u := by
  refine ⟨?_, ?_, ?_⟩
  · cases h with
    | forward hs => exact Or.inl rfl
    | abort hs => exact Or.inr rfl
  · cases h with
    | forward hs => cases s <;> first | exact absurd rfl hs | decide
    | abort hs => cases s <;> first | exact absurd rfl hs | decide
  · intro hu
    cases hu with
    | forward hd => exact hd rfl
    | abort hd => exact hd rfl

/-- Witness for C1 at the concrete transition INITIAL to READY. -/
theorem vine_state_step_strict_forward_witness :
    (VINE_TASK_READY = stateNext VINE_TASK_INITIAL ∨
      VINE_TASK_READY = VINE_TASK_DONE) ∧
    stateCode VINE_TASK_INITIAL < stateCode VINE_TASK_READY ∧
    ¬ vine_state_step VINE_TASK_DONE VINE_TASK_READY :=
  vine_state_step_strict_forward VINE_TASK_INITIAL VINE_TASK_READY VINE_TASK_READY
    (vine_state_step.forward VINE_TASK_INITIAL (by decide))

/-- C5: vine_task_set_resources sets only the allocated resource summary for the
attempt currently beginning; the requested summary (and the measured summary and
the current per-worker box) are left unchanged. -/
theorem vine_task_set_resources_spec (t : vine_task) (rm : rmsummary) :
    (vine_task_set_resources t rm).resources_allocated = some rm ∧
    (vine_task_set_resources t rm).resources_requested = t.resources_requested ∧
    (vine_task_set_resources t rm).resources_measured = t.resources_measured ∧
    (vine_task_set_resources t rm).current_resource_box = t.current_resource_box :=
  ⟨rfl, rfl, rfl, rfl⟩

/-- C7: soft reset (vine_task_clean) clears only the transient per-attempt state,
namely the worker reference, the current resource box and the partial output,
while preserving the try_count and forsaken_count counters (and the other
attempt accumulators, the lifecycle state and the submission-time fields). -/
theorem vine_task_clean_spec (t : vine_task) :
    (vine_task_clean t).try_count = t.try_count ∧
    (vine_task_clean t).forsaken_count = t.forsaken_count ∧
    (vine_task_clean t).exhausted_attempts = t.exhausted_attempts ∧
    (vine_task_clean t).forsaken_attempts = t.forsaken_attempts ∧
    (vine_task_clean t).workers_slow = t.workers_slow ∧
    (vine_task_clean t).worker = none ∧
    (vine_task_clean t).current_resource_box = none ∧
    (vine_task_clean t).output = none ∧
    (vine_task_clean t).output_received = false ∧
    (vine_task_clean t).output_length = 0 ∧
    (vine_task_clean t).state = t.state ∧
    (vine_task_clean t).command_line = t.command_line ∧
    (vine_task_clean t).resources_requested = t.resources_requested ∧
    (vine_task_clean t).resources_allocated = t.resources_allocated :=
  ⟨rfl, rfl, rfl, rfl, rfl, rfl, rfl, rfl, rfl, rfl, rfl, rfl, rfl, rfl⟩

/-- vine_task_set_result never changes the retry budget. -/
theorem set_result_max_retries (t : vine_task) (r : vine_result_t) :
    (vine_task_set_result t r).1.max_retries = t.max_retries := by
  by_cases h : r = VINE_RESULT_FORSAKEN
  · subst h; simp [vine_task_set_result, result_is_forsaken]
  · simp [vine_task_set_result, result_is_forsaken, h]

/-- vine_task_set_result increments try_count by at most one. -/
theorem set_result_try_count_le (t : vine_task) (r : vine_result_t) :
    (vine_task_set_result t r).1.try_count ≤ t.try_count + 1 := by
  by_cases h : r = VINE_RESULT_FORSAKEN
  · subst h
    simp [vine_task_set_result, result_is_forsaken]
  · simp [vine_task_set_result, result_is_forsaken, h]

/-- A non-terminal outcome leaves try_count within the retry budget. -/
theorem set_result_not_terminal_bound (t : vine_task) (r : vine_result_t)
    (hmr : 0 < t.max_retries) (h0 : t.try_count ≤ t.max_retries)
    (hterm : (vine_task_set_result t r).2 = false) :
    (vine_task_set_result t r).1.try_count ≤ t.max_retries := by
  by_cases h : r = VINE_RESULT_FORSAKEN
  · subst h
    simpa [vine_task_set_result, result_is_forsaken] using h0
  · simp [vine_task_set_result, result_is_forsaken, h] at hterm ⊢
    push_neg at hterm
    obtain ⟨h1, h2⟩ := hterm
    have h3 := h2 hmr
    omega

/-- Through any trace of attempt outcomes, try_count stays at most one above the
retry budget. -/
theorem run_attempts_try_count_bound (es : List vine_result_t) :
    ∀ t : vine_task, 0 < t.max_retries → t.try_count ≤ t.max_retries →
      (vine_task_run_attempts t es).1.try_count ≤ t.max_retries + 1 := by
  induction es with
  | nil =>
    intro t hmr h0
    simp [vine_task_run_attempts]
    omega
  | cons r rs ih =>
    intro t hmr h0
    cases hterm : (vine_task_set_result t r).2 with
    | true =>
      simp [vine_task_run_attempts, hterm]
      have := set_result_try_count_le t r
      omega
    | false =>
      simp only [vine_task_run_attempts, hterm, Bool.false_eq_true, if_false]
      have hm := set_result_max_retries t r
      have hb := set_result_not_terminal_bound t r hmr h0 hterm
      have hrec := ih (vine_task_set_result t r).1 (by rw [hm]; exact hmr)
        (by rw [hm]; exact hb)
      rw [hm] at hrec
      exact hrec

/-- C2 counterexample: the claim says try_count increments only when the worker
fails to deliver a usable result, but per vine_task.h line 83 try_count counts
every dispatch that is not forsaken: on the concrete task exRetry (try_count 0,
max_retries 2), a successful attempt - a usable result - still increments
try_count to 1. -/
theorem vine_task_try_count_increments_on_success :
    (vine_task_set_result exRetry VINE_RESULT_SUCCESS).1.try_count ≠
      exRetry.try_count ∧
    (vine_task_set_result exRetry VINE_RESULT_SUCCESS).1.try_count = 1 ∧
    (vine_task_set_result exRetry VINE_RESULT_SUCCESS).1.result =
      VINE_RESULT_SUCCESS ∧
    (vine_task_set_result exRetry VINE_RESULT_SUCCESS).2 = true := by
  refine ⟨?_, ?_, ?_, ?_⟩ <;> decide

/-- C2 (amended): for every task with max_retries > 0 and every attempt outcome
whatsoever - success, any failure, or a forsaking - try_count grows by one
exactly when the task began execution (the outcome is not a forsaking), whether
or not a usable result was delivered; starting from a fresh submission
(try_count 0), try_count never exceeds max_retries + 1 through any trace of
attempt outcomes; the result of the last attempt is always the one recorded;
and a non-forsaken outcome is terminal - finalized rather than retried again -
exactly when it is a success or try_count would exceed max_retries. -/
theorem vine_task_retry_policy (t : vine_task) (r : vine_result_t)
    (es : List vine_result_t) (hmr : 0 < t.max_retries) :
    (vine_task_set_result t r).1.try_count =
      t.try_count + (if result_is_forsaken r then 0 else 1) ∧
    (vine_task_run_attempts { t with try_count := 0 } es).1.try_count ≤
      t.max_retries + 1 ∧
    (vine_task_set_result t r).1.result = r ∧
    (vine_task_set_result t r).2 =
      (if result_is_forsaken r then
        decide (0 < t.max_forsaken ∧ t.max_forsaken < t.forsaken_count + 1)
      else decide (r = VINE_RESULT_SUCCESS ∨
        t.max_retries < t.try_count + 1)) := by
  refine ⟨?_, ?_, ?_, ?_⟩
  · by_cases hf : r = VINE_RESULT_FORSAKEN
    · subst hf
      simp [vine_task_set_result, result_is_forsaken]
    · simp [vine_task_set_result, result_is_forsaken, hf]
  · exact run_attempts_try_count_bound es { t with try_count := 0 } hmr
      (by show (0 : Int) ≤ t.max_retries; omega)
  · by_cases hf : r = VINE_RESULT_FORSAKEN
    · subst hf
      simp [vine_task_set_result, result_is_forsaken]
    · simp [vine_task_set_result, result_is_forsaken, hf]
  · by_cases hf : r = VINE_RESULT_FORSAKEN
    · subst hf
      simp [vine_task_set_result, result_is_forsaken]
    · have hb : ¬(decide (r = VINE_RESULT_FORSAKEN) = true) := by simp [hf]
      simp only [vine_task_set_result, result_is_forsaken]
      rw [if_neg hb, if_neg hb]
      show decide (r = VINE_RESULT_SUCCESS ∨
          0 < t.max_retries ∧ t.max_retries < t.try_count + 1) =
        decide (r = VINE_RESULT_SUCCESS ∨ t.max_retries < t.try_count + 1)
      rw [decide_eq_decide]
      constructor
      · rintro (hc | ⟨hm1, hm2⟩)
        · exact Or.inl hc
        · exact Or.inr hm2
      · rintro (hc | hc)
        · exact Or.inl hc
        · exact Or.inr ⟨hmr, hc⟩

/-- Witness for C2 (amended) on the concrete task exRetry (max_retries 2) with a
successful outcome - the case the original claim excluded - and a
three-attempt trace. -/
theorem vine_task_retry_policy_witness :
    (vine_task_set_result exRetry VINE_RESULT_SUCCESS).1.try_count =
      exRetry.try_count +
        (if result_is_forsaken VINE_RESULT_SUCCESS then 0 else 1) ∧
    (vine_task_run_attempts { exRetry with try_count := 0 }
        [VINE_RESULT_RESOURCE_EXHAUSTION, VINE_RESULT_SIGNAL,
         VINE_RESULT_SIGNAL]).1.try_count ≤ exRetry.max_retries + 1 ∧
    (vine_task_set_result exRetry VINE_RESULT_SUCCESS).1.result =
      VINE_RESULT_SUCCESS ∧
    (vine_task_set_result exRetry VINE_RESULT_SUCCESS).2 =
      (if result_is_forsaken VINE_RESULT_SUCCESS then
        decide (0 < exRetry.max_forsaken ∧
          exRetry.max_forsaken < exRetry.forsaken_count + 1)
      else decide (VINE_RESULT_SUCCESS = VINE_RESULT_SUCCESS ∨
        exRetry.max_retries < exRetry.try_count + 1)) :=
  vine_task_retry_policy exRetry VINE_RESULT_SUCCESS
    [VINE_RESULT_RESOURCE_EXHAUSTION, VINE_RESULT_SIGNAL, VINE_RESULT_SIGNAL]
    (by decide)

/-- C3: for every task with max_forsaken > 0 and every attempt outcome,
forsaken_count grows by one exactly when the task was dispatched but never
began execution (a FORSAKEN outcome) and is untouched otherwise; a forsaking
is terminal - finalizing the task through vine_task_set_result - exactly when
forsaken_count exceeds max_forsaken, and then the recorded result is FORSAKEN,
regardless of the value of try_count (t.try_count is arbitrary here). -/
theorem vine_task_forsaken_policy (t : vine_task) (r : vine_result_t)
    (h1 : 0 < t.max_forsaken) :
    (vine_task_set_result t r).1.forsaken_count =
      t.forsaken_count + (if result_is_forsaken r then 1 else 0) ∧
    (vine_task_set_result t VINE_RESULT_FORSAKEN).2 =
      decide (t.max_forsaken < t.forsaken_count + 1) ∧
    (vine_task_set_result t VINE_RESULT_FORSAKEN).1.result =
      VINE_RESULT_FORSAKEN := by
  refine ⟨?_, ?_, ?_⟩
  · by_cases h : r = VINE_RESULT_FORSAKEN
    · subst h
      simp [vine_task_set_result, result_is_forsaken]
    · simp [vine_task_set_result, result_is_forsaken, h]
  · simp only [vine_task_set_result, result_is_forsaken]
    rw [if_pos (by simp)]
    show decide (0 < t.max_forsaken ∧ t.max_forsaken < t.forsaken_count + 1) =
      decide (t.max_forsaken < t.forsaken_count + 1)
    rw [decide_eq_decide]
    exact ⟨fun hc => hc.2, fun hc => ⟨h1, hc⟩⟩
  · simp [vine_task_set_result, result_is_forsaken]

/-- Witness for C3 on the concrete task exForsaken, whose forsaken budget (1) is
already spent while try_count is 5: the next forsaking is terminal. -/
theorem vine_task_forsaken_policy_witness :
    (vine_task_set_result exForsaken VINE_RESULT_FORSAKEN).1.forsaken_count =
      exForsaken.forsaken_count +
        (if result_is_forsaken VINE_RESULT_FORSAKEN then 1 else 0) ∧
    (vine_task_set_result exForsaken VINE_RESULT_FORSAKEN).2 =
      decide (exForsaken.max_forsaken < exForsaken.forsaken_count + 1) ∧
    (vine_task_set_result exForsaken VINE_RESULT_FORSAKEN).1.result =
      VINE_RESULT_FORSAKEN :=
  vine_task_forsaken_policy exForsaken VINE_RESULT_FORSAKEN (by decide)

/-- A single library/function event preserves the slot-accounting invariant. -/
theorem lib_step_inv (s : vine_task × List Nat) (e : lib_event) (h : lib_inv s) :
    lib_inv (lib_step s e) := by
  obtain ⟨hty, hlen, hnd, hle⟩ := h
  cases e with
  | matched fid =>
    by_cases hg : s.1.function_slots_inuse < s.1.function_slots_total ∧ fid ∉ s.2
    · simp only [lib_step, if_pos hg]
      refine ⟨hty, ?_, List.nodup_cons.mpr ⟨hg.2, hnd⟩, ?_⟩
      · simp only [List.length_cons]
        push_cast
        omega
      · simp only []
        omega
    · simp only [lib_step, if_neg hg]
      exact ⟨hty, hlen, hnd, hle⟩
  | complete fid outcome =>
    by_cases hg : fid ∈ s.2
    · simp only [lib_step, if_pos hg]
      have hpos : 0 < s.2.length := List.length_pos_of_mem hg
      have herase : (s.2.erase fid).length = s.2.length - 1 :=
        List.length_erase_of_mem hg
      refine ⟨hty, ?_, hnd.erase fid, ?_⟩
      · simp only [herase]
        omega
      · simp only []
        omega
    · simp only [lib_step, if_neg hg]
      exact ⟨hty, hlen, hnd, hle⟩

/-- A whole trace of library/function events preserves the slot-accounting
invariant. -/
theorem lib_run_inv (es : List lib_event) :
    ∀ s : vine_task × List Nat, lib_inv s → lib_inv (lib_run s es) := by
  induction es with
  | nil => intro s h; exact h
  | cons e es ih => intro s h; exact ih (lib_step s e) (lib_step_inv s e h)

/-- C4: for every library-instance state satisfying the slot-accounting
invariant, 0 <= function_slots_inuse <= function_slots_total holds after every
trace of admissions and completions; admission increments function_slots_inuse
exactly when a slot is free and the function task is new (and does nothing
otherwise); completion decrements it exactly when the function task is admitted,
whatever the outcome (and does nothing otherwise); and a second completion of
the same function task is always a no-op, so the decrement happens exactly once
per successful admission. -/
theorem vine_function_slots_policy (s : vine_task × List Nat) (es : List lib_event)
    (fid gid : Nat) (o1 o2 : vine_result_t) (h : lib_inv s) :
    0 ≤ (lib_run s es).1.function_slots_inuse ∧
    (lib_run s es).1.function_slots_inuse ≤
      (lib_run s es).1.function_slots_total ∧
    (lib_step s (lib_event.matched gid)).1.function_slots_inuse =
      (if s.1.function_slots_inuse < s.1.function_slots_total ∧ gid ∉ s.2 then
        s.1.function_slots_inuse + 1
      else s.1.function_slots_inuse) ∧
    (lib_step s (lib_event.complete fid o1)).1.function_slots_inuse =
      (if fid ∈ s.2 then s.1.function_slots_inuse - 1
      else s.1.function_slots_inuse) ∧
    lib_step (lib_step s (lib_event.complete fid o1)) (lib_event.complete fid o2) =
      lib_step s (lib_event.complete fid o1) := by
  have hrun := lib_run_inv es s h
  refine ⟨?_, hrun.2.2.2, ?_, ?_, ?_⟩
  · rw [hrun.2.1]
    exact Int.natCast_nonneg _
  · by_cases hg : s.1.function_slots_inuse < s.1.function_slots_total ∧ gid ∉ s.2
    · rw [if_pos hg]
      simp only [lib_step, if_pos hg]
    · rw [if_neg hg]
      simp only [lib_step, if_neg hg]
  · by_cases hg : fid ∈ s.2
    · rw [if_pos hg]
      simp only [lib_step, if_pos hg]
    · rw [if_neg hg]
      simp only [lib_step, if_neg hg]
  · by_cases hg : fid ∈ s.2
    · have hnotin : fid ∉ s.2.erase fid := by
        intro hc
        exact ((h.2.2.1.mem_erase_iff).mp hc).1 rfl
      simp only [lib_step, if_pos hg]
      simp [lib_step, hnotin]
    · have h1 : lib_step s (lib_event.complete fid o1) = s := by
        simp [lib_step, hg]
      rw [h1]
      simp [lib_step, hg]

/-- Witness for C4 on the concrete library instance exLib (2 slots, 1 in use by
function task 7): the trace completes task 7, the admission admits task 9, and
completing task 7 twice decrements only once. -/
theorem vine_function_slots_policy_witness :
    0 ≤ (lib_run exLibState
          [lib_event.complete 7 VINE_RESULT_SUCCESS]).1.function_slots_inuse ∧
    (lib_run exLibState
        [lib_event.complete 7 VINE_RESULT_SUCCESS]).1.function_slots_inuse ≤
      (lib_run exLibState
          [lib_event.complete 7 VINE_RESULT_SUCCESS]).1.function_slots_total ∧
    (lib_step exLibState (lib_event.matched 9)).1.function_slots_inuse =
      (if exLibState.1.function_slots_inuse <
            exLibState.1.function_slots_total ∧ 9 ∉ exLibState.2 then
        exLibState.1.function_slots_inuse + 1
      else exLibState.1.function_slots_inuse) ∧
    (lib_step exLibState
        (lib_event.complete 7 VINE_RESULT_SIGNAL)).1.function_slots_inuse =
      (if 7 ∈ exLibState.2 then exLibState.1.function_slots_inuse - 1
      else exLibState.1.function_slots_inuse) ∧
    lib_step (lib_step exLibState (lib_event.complete 7 VINE_RESULT_SIGNAL))
        (lib_event.complete 7 VINE_RESULT_SUCCESS) =
      lib_step exLibState (lib_event.complete 7 VINE_RESULT_SIGNAL) :=
  vine_function_slots_policy exLibState [lib_event.complete 7 VINE_RESULT_SUCCESS]
    7 9 VINE_RESULT_SIGNAL VINE_RESULT_SUCCESS
    (by refine ⟨rfl, by decide, by decide, by decide⟩)

/-- C6: hard reset of a DONE task equals a freshly constructed task carrying over
exactly the submission-time fields (identity, type, command line, tag, category,
monitoring settings, library declarations, mounts, environment, features,
resource request, scheduling policy, priority, retry budgets, running-time and
input-size hints, the requested resource summary, the fixed-location flag, the
locality group and the reference count): all results, metrics and attempt
counters are back at submission defaults. -/
theorem vine_task_reset_spec (t : vine_task) (h : t.state = VINE_TASK_DONE) :
    vine_task_reset t =
      { vine_task_create t.task_id t.command_line t.input_mounts t.output_mounts with
        type := t.type
        tag := t.tag
        category := t.category
        monitor_output_directory := t.monitor_output_directory
        monitor_snapshot_file := t.monitor_snapshot_file
        needs_library := t.needs_library
        provides_library := t.provides_library
        function_slots_requested := t.function_slots_requested
        func_exec_mode := t.func_exec_mode
        env_list := t.env_list
        feature_list := t.feature_list
        resource_request := t.resource_request
        worker_selection_algorithm := t.worker_selection_algorithm
        priority := t.priority
        max_retries := t.max_retries
        max_forsaken := t.max_forsaken
        min_running_time := t.min_running_time
        input_files_size := t.input_files_size
        resources_requested := t.resources_requested
        has_fixed_locations := t.has_fixed_locations
        group_id := t.group_id
        refcount := t.refcount } := rfl

/-- Witness for C6 on the concrete completed task exDone. -/
theorem vine_task_reset_spec_witness :
    vine_task_reset exDone =
      { vine_task_create exDone.task_id exDone.command_line exDone.input_mounts
          exDone.output_mounts with
        type := exDone.type
        tag := exDone.tag
        category := exDone.category
        monitor_output_directory := exDone.monitor_output_directory
        monitor_snapshot_file := exDone.monitor_snapshot_file
        needs_library := exDone.needs_library
        provides_library := exDone.provides_library
        function_slots_requested := exDone.function_slots_requested
        func_exec_mode := exDone.func_exec_mode
        env_list := exDone.env_list
        feature_list := exDone.feature_list
        resource_request := exDone.resource_request
        worker_selection_algorithm := exDone.worker_selection_algorithm
        priority := exDone.priority
        max_retries := exDone.max_retries
        max_forsaken := exDone.max_forsaken
        min_running_time := exDone.min_running_time
        input_files_size := exDone.input_files_size
        resources_requested := exDone.resources_requested
        has_fixed_locations := exDone.has_fixed_locations
        group_id := exDone.group_id
        refcount := exDone.refcount } :=
  vine_task_reset_spec exDone rfl

/-- Reading below the length of the left part of an append ignores the right part. -/
theorem mount_getD_append_left (l l2 : List (List vine_mount)) (i : Nat)
    (h : i < l.length) : (l ++ l2).getD i [] = l.getD i [] := by
  induction l generalizing i with
  | nil => exact absurd h (Nat.not_lt_zero i)
  | cons a as ih =>
    cases i with
    | zero => rfl
    | succ n => exact ih n (Nat.lt_of_succ_lt_succ h)

/-- Reading exactly at the length of the left part of an append yields the first
element of the right part. -/
theorem mount_getD_append_self (l l2 : List (List vine_mount)) (a : List vine_mount) :
    (l ++ a :: l2).getD l.length [] = a := by
  induction l with
  | nil => rfl
  | cons b bs ih => exact ih

/-- Writing one slot leaves every other slot unchanged. -/
theorem mount_getD_set_ne (l : List (List vine_mount)) (i j : Nat)
    (a : List vine_mount) (h : i ≠ j) : (l.set i a).getD j [] = l.getD j [] := by
  induction l generalizing i j with
  | nil => rfl
  | cons b bs ih =>
    cases i with
    | zero =>
      cases j with
      | zero => exact absurd rfl h
      | succ m => rfl
    | succ n =>
      cases j with
      | zero => rfl
      | succ m => exact ih n m (fun hc => h (by rw [hc]))

/-- C8: vine_task_copy produces a new task whose submission-time fields equal the
original's, whose mount lists are duplicated into fresh store slots - so writing
any list through the copy's mount pointers leaves the original's mounts unchanged
- and whose counters and results are reset to their initial values. -/
theorem vine_task_copy_spec (s : MountStore) (t : vine_task)
    (l1 l2 : List vine_mount)
    (hi : t.input_mounts < s.lists.length) (ho : t.output_mounts < s.lists.length) :
    ((vine_task_copy s t).2.task_id = t.task_id ∧
     (vine_task_copy s t).2.type = t.type ∧
     (vine_task_copy s t).2.command_line = t.command_line ∧
     (vine_task_copy s t).2.tag = t.tag ∧
     (vine_task_copy s t).2.category = t.category ∧
     (vine_task_copy s t).2.needs_library = t.needs_library ∧
     (vine_task_copy s t).2.provides_library = t.provides_library ∧
     (vine_task_copy s t).2.function_slots_requested = t.function_slots_requested ∧
     (vine_task_copy s t).2.func_exec_mode = t.func_exec_mode ∧
     (vine_task_copy s t).2.env_list = t.env_list ∧
     (vine_task_copy s t).2.feature_list = t.feature_list ∧
     (vine_task_copy s t).2.resource_request = t.resource_request ∧
     (vine_task_copy s t).2.worker_selection_algorithm =
       t.worker_selection_algorithm ∧
     (vine_task_copy s t).2.priority = t.priority ∧
     (vine_task_copy s t).2.max_retries = t.max_retries ∧
     (vine_task_copy s t).2.max_forsaken = t.max_forsaken ∧
     (vine_task_copy s t).2.min_running_time = t.min_running_time ∧
     (vine_task_copy s t).2.input_files_size = t.input_files_size ∧
     (vine_task_copy s t).2.resources_requested = t.resources_requested) ∧
    (store_get (vine_task_copy s t).1 (vine_task_copy s t).2.input_mounts =
       store_get s t.input_mounts ∧
     store_get (vine_task_copy s t).1 (vine_task_copy s t).2.output_mounts =
       store_get s t.output_mounts) ∧
    ((vine_task_copy s t).2.try_count = 0 ∧
     (vine_task_copy s t).2.forsaken_count = 0 ∧
     (vine_task_copy s t).2.exhausted_attempts = 0 ∧
     (vine_task_copy s t).2.result = VINE_RESULT_UNKNOWN ∧
     (vine_task_copy s t).2.state = VINE_TASK_INITIAL ∧
     (vine_task_copy s t).2.worker = none ∧
     (vine_task_copy s t).2.output = none ∧
     (vine_task_copy s t).2.refcount = 1) ∧
    ((vine_task_copy s t).2.input_mounts ≠ t.input_mounts ∧
     (vine_task_copy s t).2.output_mounts ≠ t.output_mounts ∧
     store_get
         (store_set (vine_task_copy s t).1 (vine_task_copy s t).2.input_mounts l1)
         t.input_mounts = store_get s t.input_mounts ∧
     store_get
         (store_set (vine_task_copy s t).1 (vine_task_copy s t).2.output_mounts l2)
         t.output_mounts = store_get s t.output_mounts) := by
  have hlen1 : (s.lists ++ [store_get s t.input_mounts]).length =
      s.lists.length + 1 := by simp
  have hi1 : t.input_mounts < (s.lists ++ [store_get s t.input_mounts]).length := by
    rw [hlen1]; omega
  have ho1 : t.output_mounts < (s.lists ++ [store_get s t.input_mounts]).length := by
    rw [hlen1]; omega
  refine ⟨⟨rfl, rfl, rfl, rfl, rfl, rfl, rfl, rfl, rfl, rfl, rfl, rfl, rfl, rfl,
      rfl, rfl, rfl, rfl, rfl⟩, ⟨?_, ?_⟩,
      ⟨rfl, rfl, rfl, rfl, rfl, rfl, rfl, rfl⟩, ?_, ?_, ?_, ?_⟩
  · show ((s.lists ++ [store_get s t.input_mounts]) ++
        [store_get s t.output_mounts]).getD s.lists.length [] =
      store_get s t.input_mounts
    rw [List.append_assoc]
    exact mount_getD_append_self s.lists [store_get s t.output_mounts]
      (store_get s t.input_mounts)
  · show ((s.lists ++ [store_get s t.input_mounts]) ++
        [store_get s t.output_mounts]).getD
          (s.lists ++ [store_get s t.input_mounts]).length [] =
      store_get s t.output_mounts
    exact mount_getD_append_self (s.lists ++ [store_get s t.input_mounts]) []
      (store_get s t.output_mounts)
  · show s.lists.length ≠ t.input_mounts
    omega
  · show (s.lists ++ [store_get s t.input_mounts]).length ≠ t.output_mounts
    rw [hlen1]; omega
  · have hne : s.lists.length ≠ t.input_mounts := by omega
    show (((s.lists ++ [store_get s t.input_mounts]) ++
        [store_get s t.output_mounts]).set s.lists.length l1).getD
          t.input_mounts [] =
      store_get s t.input_mounts
    rw [mount_getD_set_ne _ _ _ _ hne, mount_getD_append_left _ _ _ hi1,
      mount_getD_append_left _ _ _ hi]
    rfl
  · have hne2 : (s.lists ++ [store_get s t.input_mounts]).length ≠
        t.output_mounts := by rw [hlen1]; omega
    show (((s.lists ++ [store_get s t.input_mounts]) ++
        [store_get s t.output_mounts]).set
          (s.lists ++ [store_get s t.input_mounts]).length l2).getD
          t.output_mounts [] =
      store_get s t.output_mounts
    rw [mount_getD_set_ne _ _ _ _ hne2, mount_getD_append_left _ _ _ ho1,
      mount_getD_append_left _ _ _ ho]
    rfl

/-- Witness for C8 on the concrete store exStore and task exTask, mutating the
copy's input mounts with mountsNew and its output mounts with the empty list. -/
theorem vine_task_copy_spec_witness :
    ((vine_task_copy exStore exTask).2.task_id = exTask.task_id ∧
     (vine_task_copy exStore exTask).2.type = exTask.type ∧
     (vine_task_copy exStore exTask).2.command_line = exTask.command_line ∧
     (vine_task_copy exStore exTask).2.tag = exTask.tag ∧
     (vine_task_copy exStore exTask).2.category = exTask.category ∧
     (vine_task_copy exStore exTask).2.needs_library = exTask.needs_library ∧
     (vine_task_copy exStore exTask).2.provides_library = exTask.provides_library ∧
     (vine_task_copy exStore exTask).2.function_slots_requested =
       exTask.function_slots_requested ∧
     (vine_task_copy exStore exTask).2.func_exec_mode = exTask.func_exec_mode ∧
     (vine_task_copy exStore exTask).2.env_list = exTask.env_list ∧
     (vine_task_copy exStore exTask).2.feature_list = exTask.feature_list ∧
     (vine_task_copy exStore exTask).2.resource_request = exTask.resource_request ∧
     (vine_task_copy exStore exTask).2.worker_selection_algorithm =
       exTask.worker_selection_algorithm ∧
     (vine_task_copy exStore exTask).2.priority = exTask.priority ∧
     (vine_task_copy exStore exTask).2.max_retries = exTask.max_retries ∧
     (vine_task_copy exStore exTask).2.max_forsaken = exTask.max_forsaken ∧
     (vine_task_copy exStore exTask).2.min_running_time =
       exTask.min_running_time ∧
     (vine_task_copy exStore exTask).2.input_files_size =
       exTask.input_files_size ∧
     (vine_task_copy exStore exTask).2.resources_requested =
       exTask.resources_requested) ∧
    (store_get (vine_task_copy exStore exTask).1
        (vine_task_copy exStore exTask).2.input_mounts =
       store_get exStore exTask.input_mounts ∧
     store_get (vine_task_copy exStore exTask).1
        (vine_task_copy exStore exTask).2.output_mounts =
       store_get exStore exTask.output_mounts) ∧
    ((vine_task_copy exStore exTask).2.try_count = 0 ∧
     (vine_task_copy exStore exTask).2.forsaken_count = 0 ∧
     (vine_task_copy exStore exTask).2.exhausted_attempts = 0 ∧
     (vine_task_copy exStore exTask).2.result = VINE_RESULT_UNKNOWN ∧
     (vine_task_copy exStore exTask).2.state = VINE_TASK_INITIAL ∧
     (vine_task_copy exStore exTask).2.worker = none ∧
     (vine_task_copy exStore exTask).2.output = none ∧
     (vine_task_copy exStore exTask).2.refcount = 1) ∧
    ((vine_task_copy exStore exTask).2.input_mounts ≠ exTask.input_mounts ∧
     (vine_task_copy exStore exTask).2.output_mounts ≠ exTask.output_mounts ∧
     store_get
         (store_set (vine_task_copy exStore exTask).1
           (vine_task_copy exStore exTask).2.input_mounts mountsNew)
         exTask.input_mounts = store_get exStore exTask.input_mounts ∧
     store_get
         (store_set (vine_task_copy exStore exTask).1
           (vine_task_copy exStore exTask).2.output_mounts [])
         exTask.output_mounts = store_get exStore exTask.output_mounts) :=
  vine_task_copy_spec exStore exTask mountsNew [] (by decide) (by decide)

/-- C9: when two mounts of the same direction list claim the same remote name, or
an input mount and an output mount collide on a remote name, submission rejects
the task with a structural error: vine_task_submit returns the
inconsistent-mounts error, so the INITIAL to READY transition never occurs for
such a task. -/
theorem vine_task_submit_rejects_inconsistent (s : MountStore) (t : vine_task)
    (h : names_distinct (remote_names (store_get s t.input_mounts)) = false ∨
         names_distinct (remote_names (store_get s t.output_mounts)) = false ∨
         names_disjoint (remote_names (store_get s t.input_mounts))
           (remote_names (store_get s t.output_mounts)) = false) :
    vine_task_submit s t = Except.error vine_submit_error.inconsistent_mounts ∧
    submit_isok (vine_task_submit s t) = false := by
  have hc : vine_task_check_consistency s t = false := by
    rcases h with h | h | h <;> simp [vine_task_check_consistency, h]
  constructor
  · simp [vine_task_submit, hc]
  · simp [vine_task_submit, hc, submit_isok]

/-- Witness for C9: in exBadStore the task's two output mounts both declare the
remote name out.txt, and submission is rejected. -/
theorem vine_task_submit_rejects_inconsistent_witness :
    vine_task_submit exBadStore exTask =
      Except.error vine_submit_error.inconsistent_mounts ∧
    submit_isok (vine_task_submit exBadStore exTask) = false :=
  vine_task_submit_rejects_inconsistent exBadStore exTask (by decide)

/-- C10: every string naming neither the DIRECT nor the FORK execution mode
parses to VINE_TASK_FUNC_EXEC_MODE_INVALID, and a library task submitted with
such an invalid execution mode string is rejected synchronously - vine_task_submit
returns an error, so the task never leaves INITIAL and no attempt (hence no retry)
ever happens for it. -/
theorem vine_task_exec_mode_policy (exec_mode : String) (store : MountStore)
    (t : vine_task)
    (h1 : exec_mode ≠ "direct") (h2 : exec_mode ≠ "fork")
    (hty : t.type = VINE_TASK_TYPE_LIBRARY_TEMPLATE ∨
           t.type = VINE_TASK_TYPE_LIBRARY_INSTANCE) :
    vine_task_func_exec_mode_from_string exec_mode =
      VINE_TASK_FUNC_EXEC_MODE_INVALID ∧
    submit_isok (vine_task_submit store
        (vine_task_set_function_exec_mode t exec_mode)) = false ∧
    (vine_task_set_function_exec_mode t exec_mode).state = t.state ∧
    (vine_task_set_function_exec_mode t exec_mode).try_count = t.try_count ∧
    (vine_task_set_function_exec_mode t exec_mode).forsaken_count =
      t.forsaken_count := by
  have hmode : vine_task_func_exec_mode_from_string exec_mode =
      VINE_TASK_FUNC_EXEC_MODE_INVALID := by
    simp [vine_task_func_exec_mode_from_string, h1, h2]
  refine ⟨hmode, ?_, rfl, rfl, rfl⟩
  by_cases hc : vine_task_check_consistency store
      (vine_task_set_function_exec_mode t exec_mode) = false
  · simp [vine_task_submit, hc, submit_isok]
  · have hflag : (vine_task_set_function_exec_mode t exec_mode).func_exec_mode =
        VINE_TASK_FUNC_EXEC_MODE_INVALID := hmode
    have htty : (vine_task_set_function_exec_mode t exec_mode).type = t.type := rfl
    simp [vine_task_submit, hc, submit_isok, hflag, htty, hty]

/-- Witness for C10 with the string banana on a library-template task. -/
theorem vine_task_exec_mode_policy_witness :
    vine_task_func_exec_mode_from_string "banana" =
      VINE_TASK_FUNC_EXEC_MODE_INVALID ∧
    submit_isok (vine_task_submit exStore
        (vine_task_set_function_exec_mode exLibTemplate "banana")) = false ∧
    (vine_task_set_function_exec_mode exLibTemplate "banana").state =
      exLibTemplate.state ∧
    (vine_task_set_function_exec_mode exLibTemplate "banana").try_count =
      exLibTemplate.try_count ∧
    (vine_task_set_function_exec_mode exLibTemplate "banana").forsaken_count =
      exLibTemplate.forsaken_count :=
  vine_task_exec_mode_policy "banana" exStore exLibTemplate (by decide) (by decide)
    (Or.inl rfl)
